import Mathlib

/-!
# Verification of the OR_PROJECT validation and display layer

Shallow embedding, in Lean 4, of the input-validation functions
(`src/utils/validators.py`), the result formatters
(`src/utils/formatters.py`, `src/ui/components/result_display.py`),
the transportation balance check (`src/ui/transportation_view.py`),
the sensitivity tables (`src/ui/components/sensitivity_table.py`) and
the what-if panel state operations (`src/ui/components/what_if_panel.py`).

Conventions of the embedding:
* Finite machine-float values are embedded as rationals (`ℚ`); where
  non-finite values (NaN, ±Inf) are observable, floats are embedded as
  the inductive `FloatVal` below.
* A NumPy 2-D array is embedded as its list of rows `List (List ℚ)`
  (NumPy arrays are rectangular; where a claim needs it, rectangularity
  is an explicit hypothesis). `shape` is `(number of rows, length of
  the first row)` and `size` is the product of the two.
* Python tuples `(bool, value)` become Lean products.
-/

namespace ORProject

/-- Shape of an embedded 2-D array: `(rows, cols)`, with `cols` read off
the first row (rows of a NumPy array all have the same length). -/
def matShape (m : List (List ℚ)) : Nat × Nat :=
  (m.length, (m.headD []).length)

/-- `size` of an embedded 2-D array: product of the shape components,
as in NumPy. -/
def matSize (m : List (List ℚ)) : Nat :=
  m.length * (m.headD []).length

/-- Embedding of `np.any(v < 0)` for a 1-D array. -/
def anyNegVec (v : List ℚ) : Bool :=
  v.any (fun x => x < 0)

/-- Embedding of `np.any(m < 0)` for a 2-D array. -/
def anyNegMat (m : List (List ℚ)) : Bool :=
  m.any (fun row => row.any (fun x => x < 0))

/-- Embedding of `validate_transportation_inputs`
(`src/utils/validators.py`, lines 132-168): checks, in order, that
supply is non-empty, demand is non-empty, the cost matrix is non-empty,
the cost-matrix shape is `(len(supply), len(demand))`, and that no
supply, demand or cost entry is negative. -/
def validate_transportation_inputs (supply demand : List ℚ)
    (costs : List (List ℚ)) : Bool × String :=
  if supply.length = 0 then
    (false, "Supply values are empty")
  else if demand.length = 0 then
    (false, "Demand values are empty")
  else if matSize costs = 0 then
    (false, "Cost matrix is empty")
  else if matShape costs ≠ (supply.length, demand.length) then
    (false, "Cost matrix shape doesn't match supply and demand")
  else if anyNegVec supply then
    (false, "Supply values must be non-negative")
  else if anyNegVec demand then
    (false, "Demand values must be non-negative")
  else if anyNegMat costs then
    (false, "Cost values must be non-negative")
  else
    (true, "Valid")

/-- The rejection condition claimed for `validate_transportation_inputs`:
supply empty, demand empty, cost matrix empty, shape mismatch, or some
negative entry. -/
def transportationBad (supply demand : List ℚ)
    (costs : List (List ℚ)) : Prop :=
  supply.length = 0 ∨ demand.length = 0 ∨ matSize costs = 0 ∨
    matShape costs ≠ (supply.length, demand.length) ∨
    anyNegVec supply = true ∨ anyNegVec demand = true ∨
    anyNegMat costs = true

/-- C1: For every supply vector, demand vector and cost matrix,
`validate_transportation_inputs` returns `(False, message)` with a
message different from `"Valid"` exactly when supply is empty, demand is
empty, the cost matrix is empty, the shape differs from
`(len supply, len demand)`, or some supply, demand or cost entry is
negative; in every other case it returns `(True, "Valid")`. -/
theorem validate_transportation_inputs_spec
    (supply demand : List ℚ) (costs : List (List ℚ)) :
    (validate_transportation_inputs supply demand costs = (true, "Valid")
        ↔ ¬ transportationBad supply demand costs) ∧
    ((validate_transportation_inputs supply demand costs).1 = false
        ↔ transportationBad supply demand costs) ∧
    ((validate_transportation_inputs supply demand costs).2 = "Valid"
        ↔ (validate_transportation_inputs supply demand costs).1 = true) := by
  unfold validate_transportation_inputs transportationBad
  split_ifs with h1 h2 h3 h4 h5 h6 h7 <;> simp_all

/-- Embedding of `validate_lp_inputs` (`src/utils/validators.py`,
lines 78-109): checks, in order, that `c` is non-empty, `A` is
non-empty, `b` is non-empty, `A` has `len c` columns, and `A` has
`len b` rows. -/
def validate_lp_inputs (c : List ℚ) (A : List (List ℚ))
    (b : List ℚ) : Bool × String :=
  if c.length = 0 then
    (false, "Objective function coefficients are empty")
  else if matSize A = 0 then
    (false, "Constraint matrix is empty")
  else if b.length = 0 then
    (false, "RHS values are empty")
  else if (matShape A).2 ≠ c.length then
    (false, "Constraint matrix column count does not match the number of variables")
  else if (matShape A).1 ≠ b.length then
    (false, "Constraint matrix row count does not match the number of RHS values")
  else
    (true, "Valid")

/-- C4: `validate_lp_inputs` returns `(True, "Valid")` exactly when `c`,
`A` and `b` are non-empty, `A` has exactly `len c` columns and exactly
`len b` rows; every violation yields `(False, message)` with a message
different from `"Valid"`. -/
theorem validate_lp_inputs_spec (c : List ℚ) (A : List (List ℚ))
    (b : List ℚ) :
    (validate_lp_inputs c A b = (true, "Valid")
        ↔ c.length ≠ 0 ∧ matSize A ≠ 0 ∧ b.length ≠ 0 ∧
          (matShape A).2 = c.length ∧ (matShape A).1 = b.length) ∧
    ((validate_lp_inputs c A b).1 = false
        ↔ ¬ (c.length ≠ 0 ∧ matSize A ≠ 0 ∧ b.length ≠ 0 ∧
             (matShape A).2 = c.length ∧ (matShape A).1 = b.length)) ∧
    ((validate_lp_inputs c A b).2 = "Valid"
        ↔ (validate_lp_inputs c A b).1 = true) := by
  unfold validate_lp_inputs
  split_ifs with h1 h2 h3 h4 h5 <;> simp_all

/-- Outcome of the balance check of
`TransportationView._check_balance` (`src/ui/transportation_view.py`,
lines 354-378): the label reports balance, excess supply, or excess
demand, with the displayed quantity. -/
inductive BalanceStatus where
  | balanced (total : ℚ)
  | excessSupply (diff : ℚ)
  | excessDemand (diff : ℚ)
  deriving DecidableEq, Repr

/-- Embedding of `TransportationView._check_balance`
(`src/ui/transportation_view.py`, lines 354-378): compares total supply
and total demand and classifies the problem, reporting the excess. -/
def check_balance (supply demand : List ℚ) : BalanceStatus :=
  let total_supply := supply.sum
  let total_demand := demand.sum
  if |total_supply - total_demand| < 1 / 1000000 then
    .balanced total_supply
  else if total_supply > total_demand then
    .excessSupply (total_supply - total_demand)
  else
    .excessDemand (total_demand - total_supply)

/-- C3: the balance check classifies as balanced exactly when
`|sum supply − sum demand| < 1e-6`; otherwise, when
`sum supply > sum demand` it reports an excess supply of
`sum supply − sum demand`, and in the remaining case an excess demand
of `sum demand − sum supply`; in either unbalanced case the reported
excess is positive, so whichever imbalance existed is reported. -/
theorem check_balance_spec (supply demand : List ℚ) :
    (check_balance supply demand = .balanced supply.sum
        ↔ |supply.sum - demand.sum| < 1 / 1000000) ∧
    (¬ |supply.sum - demand.sum| < 1 / 1000000 →
      (supply.sum > demand.sum →
        check_balance supply demand
          = .excessSupply (supply.sum - demand.sum)) ∧
      (¬ supply.sum > demand.sum →
        check_balance supply demand
          = .excessDemand (demand.sum - supply.sum))) ∧
    (∀ d, check_balance supply demand = .excessSupply d → 0 < d) ∧
    (∀ d, check_balance supply demand = .excessDemand d → 0 < d) := by
  unfold check_balance
  dsimp only
  split_ifs with h1 h2 <;> simp_all
  rcases abs_cases (supply.sum - demand.sum) with ⟨he, _⟩ | ⟨he, _⟩ <;>
    rw [he] at h1 <;> linarith

/-- A transportation route record as produced by the engine and consumed
by `format_transportation_result` / `display_transportation_result`:
source, destination, shipped quantity, unit cost, and
`route_cost = quantity × unit_cost`. -/
structure Route where
  src : String
  dest : String
  quantity : ℚ
  unit_cost : ℚ
  route_cost : ℚ
  deriving DecidableEq, Repr

/-- Embedding of the route loop of `format_transportation_result`
(`src/utils/formatters.py`, lines 205-235): starting from an empty line
list and `total_cost = 0`, each route with `quantity > 0.001` is
appended to the output and adds its `route_cost` to the running total;
other routes are skipped. Returns the displayed routes (in order) and
the displayed total transportation cost. -/
def format_transportation_result (routes : List Route) :
    List Route × ℚ :=
  routes.foldl
    (fun acc route =>
      if route.quantity > 1 / 1000 then
        (acc.1 ++ [route], acc.2 + route.route_cost)
      else acc)
    ([], 0)

/-- Embedding of the route loop of
`ResultDisplay.display_transportation_result`
(`src/ui/components/result_display.py`, lines 179-220): a route is
rendered exactly when its `quantity > 0.001`. -/
def display_transportation_routes (routes : List Route) : List Route :=
  routes.filter (fun route => route.quantity > 1 / 1000)

lemma format_transportation_result_foldl (routes : List Route)
    (l : List Route) (t : ℚ) :
    routes.foldl
      (fun acc route =>
        if route.quantity > 1 / 1000 then
          (acc.1 ++ [route], acc.2 + route.route_cost)
        else acc)
      (l, t)
    = (l ++ routes.filter (fun route => route.quantity > 1 / 1000),
       t + (routes.map
              (fun route =>
                if route.quantity > 1 / 1000 then route.route_cost
                else 0)).sum) := by
  induction routes generalizing l t with
  | nil => simp
  | cons r rest ih =>
    simp only [List.foldl_cons, List.filter_cons, List.map_cons]
    by_cases h : r.quantity > 1 / 1000
    · rw [if_pos h, ih]
      rw [gt_iff_lt, one_div] at h
      simp [h, List.append_assoc, add_assoc]
    · rw [if_neg h, ih]
      rw [gt_iff_lt, one_div] at h
      simp [h]

/-- C2 counterexample: the route ⟨S1, D1, quantity 1/10000, unit cost 1,
route cost 1/10000⟩ has quantity exceeding the tolerance 1e-6, yet it
does not appear in the formatted shipping-routes output and contributes
nothing to the displayed total (its route cost is nonzero), because the
display threshold in the code is 0.001, not 1e-6. -/
theorem route_display_tolerance_counterexample :
    (Route.mk "S1" "D1" (1/10000) 1 (1/10000)).quantity > 1/1000000 ∧
    format_transportation_result
        [Route.mk "S1" "D1" (1/10000) 1 (1/10000)] = ([], 0) ∧
    display_transportation_routes
        [Route.mk "S1" "D1" (1/10000) 1 (1/10000)] = [] ∧
    (Route.mk "S1" "D1" (1/10000) 1 (1/10000)).route_cost ≠ 0 := by
  refine ⟨by norm_num, ?_, ?_, by norm_num⟩
  · unfold format_transportation_result
    norm_num
  · unfold display_transportation_routes
    norm_num

/-- C2 amended: a transportation route record appears in the formatted
shipping-routes output (both in `format_transportation_result` and in
`ResultDisplay.display_transportation_result`), and contributes its
`route_cost` to the displayed total transportation cost, exactly when
its quantity exceeds 0.001 — not the shared tolerance constant 1e-6. -/
theorem route_display_threshold_spec (routes : List Route) :
    (format_transportation_result routes).1
        = routes.filter (fun route => route.quantity > 1 / 1000) ∧
    (format_transportation_result routes).2
        = (routes.map
            (fun route =>
              if route.quantity > 1 / 1000 then route.route_cost
              else 0)).sum ∧
    display_transportation_routes routes
        = routes.filter (fun route => route.quantity > 1 / 1000) := by
  have h := format_transportation_result_foldl routes [] 0
  unfold format_transportation_result
  rw [h]
  simp [display_transportation_routes]

/-- An IEEE float value, embedded as a finite rational or one of the
non-finite values NaN, +Inf, -Inf. Used where the code observes
non-finiteness (`np.isfinite`) or where infinities flow through
(`float('inf')` in the ranging displays). -/
inductive FloatVal where
  | finite (q : ℚ)
  | posInf
  | negInf
  | nan
  deriving DecidableEq, Repr

/-- Embedding of `np.isfinite` on one value. -/
def FloatVal.isFinite : FloatVal → Bool
  | .finite _ => true
  | _ => false

/-- Embedding of the float comparison `a > b`: any comparison involving
NaN is false; infinities compare in the usual order. -/
def FloatVal.fgt : FloatVal → FloatVal → Bool
  | .nan, _ => false
  | _, .nan => false
  | .posInf, .posInf => false
  | .posInf, _ => true
  | .negInf, _ => false
  | .finite _, .posInf => false
  | .finite _, .negInf => true
  | .finite a, .finite b => a > b

/-- Shape of an embedded 2-D float array, as `matShape`. -/
def fmatShape (m : List (List FloatVal)) : Nat × Nat :=
  (m.length, (m.headD []).length)

/-- `size` of an embedded 2-D float array, as `matSize`. -/
def fmatSize (m : List (List FloatVal)) : Nat :=
  m.length * (m.headD []).length

/-- Embedding of `np.isfinite(matrix).all()` for a 2-D array. -/
def allFinite (m : List (List FloatVal)) : Bool :=
  m.all (fun row => row.all FloatVal.isFinite)

/-- Embedding of `validate_matrix` (`src/utils/validators.py`, lines
59-75), on a NumPy 2-D array embedded as its list of rows: rejects an
empty matrix, then a matrix with a NaN or Inf entry. -/
def validate_matrix (m : List (List FloatVal)) : Bool × String :=
  if fmatSize m = 0 then
    (false, "Matrix is empty")
  else if ¬ allFinite m then
    (false, "Matrix contains invalid values (NaN or Inf)")
  else
    (true, "Valid")

/-- `ndim` of the embedded 2-D array: the embedding fixes the input as
a list of rows, so `ndim` is always 2 (the source's
`matrix.ndim != 2` guard in `validate_assignment_matrix` concerns
inputs that are not 2-D arrays, which the 2-D embedding excludes). -/
def ndim2 (_ : List (List FloatVal)) : Nat := 2

/-- Embedding of `validate_assignment_matrix`
(`src/utils/validators.py`, lines 112-129): runs `validate_matrix`,
then rejects a non-2-D input (unreachable under the 2-D embedding). -/
def validate_assignment_matrix (m : List (List FloatVal)) :
    Bool × String :=
  let r := validate_matrix m
  if r.1 = false then r
  else if ndim2 m ≠ 2 then
    (false, "Matrix must be 2-dimensional")
  else
    (true, "Valid")

/-- C5: an assignment input matrix is rejected by
`validate_assignment_matrix` (returning `False` with a message
different from `"Valid"`) exactly when it is empty or contains a
non-finite entry (NaN or Inf); every non-empty 2-D matrix with all
entries finite is accepted as `(True, "Valid")`. -/
theorem validate_assignment_matrix_spec (m : List (List FloatVal)) :
    (validate_assignment_matrix m = (true, "Valid")
        ↔ fmatSize m ≠ 0 ∧ allFinite m = true) ∧
    ((validate_assignment_matrix m).1 = false
        ↔ fmatSize m = 0 ∨ ¬ allFinite m = true) ∧
    ((validate_assignment_matrix m).2 = "Valid"
        ↔ (validate_assignment_matrix m).1 = true) := by
  unfold validate_assignment_matrix validate_matrix ndim2
  split_ifs with h1 h2 <;> simp_all

/-- The `Any`-typed argument of the scalar validators, abstracted by
the behaviour of the `float` builtin on it: `float(value)` either
succeeds and yields the float `x` (e.g. `float('inf')` and the string
`"inf"` both yield +Inf), raises `ValueError` (a non-numeric string),
raises `TypeError` (`None`, a non-numeric object), or raises
`OverflowError` (an `int` of magnitude at least `2^1024`, e.g.
`10**400`). -/
inductive PyValue where
  | conv (x : FloatVal)
  | valueErr
  | typeErr
  | overflowErr
  deriving DecidableEq, Repr

/-- Embedding of `validate_numeric` (`src/utils/validators.py`, lines
10-24): `try: return True, float(value)` with
`except (ValueError, TypeError): return False, 0.0`. A `ValueError` or
`TypeError` from `float` is caught and turned into `(False, 0.0)`; an
`OverflowError` is not in the `except` tuple, so it propagates to the
caller — modelled as `none` (no value is returned). -/
def validate_numeric : PyValue → Option (Bool × FloatVal)
  | .conv x => some (true, x)
  | .valueErr => some (false, .finite 0)
  | .typeErr => some (false, .finite 0)
  | .overflowErr => none

/-- Embedding of `validate_positive` (`src/utils/validators.py`, lines
27-40): valid exactly when `validate_numeric` succeeds and the value
compares `> 0` (float comparison, so false for NaN); an exception
escaping `validate_numeric` propagates. -/
def validate_positive (v : PyValue) : Option (Bool × FloatVal) :=
  match validate_numeric v with
  | none => none
  | some r =>
      if r.1 ∧ r.2.fgt (.finite 0) then some (true, r.2)
      else some (false, .finite 0)

/-- C10 counterexample: on the input `10**400` — not convertible to
`float` — `validate_numeric` does not return `(False, 0.0)`: the
`OverflowError` raised by `float` is not caught by
`except (ValueError, TypeError)`, so the function raises instead of
returning. -/
theorem validate_numeric_raise_counterexample :
    validate_numeric .overflowErr = none ∧
    validate_numeric .overflowErr ≠ some (false, .finite 0) := by
  exact ⟨rfl, by simp [validate_numeric]⟩

/-- C10 amended: `validate_numeric` returns `(False, 0.0)` exactly on
the inputs where `float` raises `ValueError` or `TypeError`; on an
input where `float` raises `OverflowError` (e.g. the int `10**400`)
the exception propagates uncaught, so "never raises" fails there and
nothing is returned. It does not require finiteness — it returns
`(True, x)` for every convertible input `x`, NaN and ±Inf included —
so `validate_positive float('inf')` returns `(True, inf)`, while
`validate_matrix` rejects the matrix `[[inf]]`: non-finite values are
rejected only for matrix inputs, never for scalar inputs. -/
theorem validate_numeric_amended_spec :
    (∀ v : PyValue, validate_numeric v = some (false, .finite 0)
        ↔ v = .valueErr ∨ v = .typeErr) ∧
    (∀ v : PyValue, validate_numeric v = none ↔ v = .overflowErr) ∧
    (∀ x : FloatVal, validate_numeric (.conv x) = some (true, x)) ∧
    validate_positive (.conv .posInf) = some (true, .posInf) ∧
    (validate_matrix [[FloatVal.posInf]]).1 = false ∧
    (validate_matrix [[FloatVal.posInf]]).2
      = "Matrix contains invalid values (NaN or Inf)" := by
  refine ⟨?_, ?_, fun x => rfl, rfl, rfl, rfl⟩
  · intro v
    cases v with
    | conv x =>
      simp only [validate_numeric, Option.some.injEq, Prod.mk.injEq]
      constructor
      · rintro ⟨h, -⟩; exact absurd h (by simp)
      · rintro (h | h) <;> cases h
    | valueErr => simp [validate_numeric]
    | typeErr => simp [validate_numeric]
    | overflowErr => simp [validate_numeric]
  · intro v
    cases v <;> simp [validate_numeric]

/-- Embedding of the binding-status computation of
`SensitivityTable.display_shadow_prices`
(`src/ui/components/sensitivity_table.py`, lines 99-131) for row `i`:
`slacks = slack_values or zeros(n)`, `slack = slacks[i] if i < len
else 0`, then `"Binding"` when `abs(slack) < 1e-6` and `"Non-binding"`
otherwise. -/
def shadow_price_status (n : Nat) (slack_values : Option (List ℚ))
    (i : Nat) : String :=
  let slacks := slack_values.getD (List.replicate n 0)
  let slack := slacks.getD i 0
  if |slack| < 1 / 1000000 then "Binding" else "Non-binding"

/-- Embedding of the binding-status label of
`WhatIfPanel._create_constraint_row`
(`src/ui/components/what_if_panel.py`, lines 391-444), computed when a
solution with slack values is present and the row index is in range:
`"Binding"` when `abs(slack) < 1e-6`, else `"Non-binding"`. -/
def constraint_row_status (slack : ℚ) : String :=
  if |slack| < 1 / 1000000 then "Binding" else "Non-binding"

/-- C6: in the shadow-price table and in the what-if constraint list, a
constraint is labeled `"Binding"` exactly when the magnitude of its
slack value is below 1e-6, and `"Non-binding"` otherwise. -/
theorem binding_status_spec (n : Nat) (slacks : List ℚ) (i : Nat)
    (slack : ℚ) :
    (shadow_price_status n (some slacks) i = "Binding"
        ↔ |slacks.getD i 0| < 1 / 1000000) ∧
    (shadow_price_status n (some slacks) i = "Non-binding"
        ↔ ¬ |slacks.getD i 0| < 1 / 1000000) ∧
    (constraint_row_status slack = "Binding"
        ↔ |slack| < 1 / 1000000) ∧
    (constraint_row_status slack = "Non-binding"
        ↔ ¬ |slack| < 1 / 1000000) := by
  unfold shadow_price_status constraint_row_status
  dsimp only [Option.getD]
  refine ⟨?_, ?_, ?_, ?_⟩ <;> split_ifs with h
  · exact iff_of_true rfl h
  · exact iff_of_false (by decide) h
  · exact iff_of_false (by decide) (not_not_intro h)
  · exact iff_of_true rfl h
  · exact iff_of_true rfl h
  · exact iff_of_false (by decide) h
  · exact iff_of_false (by decide) (not_not_intro h)
  · exact iff_of_true rfl h

/-- Embedding of the basic-status computation of
`SensitivityTable.display_reduced_costs`
(`src/ui/components/sensitivity_table.py`, lines 133-165) for row `i`:
`values = solution or zeros(n)`, `val = values[i] if i < len else 0`,
then `"Basic"` when `val > 1e-6` and `"Non-basic"` otherwise. -/
def reduced_cost_status (n : Nat) (solution : Option (List ℚ))
    (i : Nat) : String :=
  let values := solution.getD (List.replicate n 0)
  let val := values.getD i 0
  if val > 1 / 1000000 then "Basic" else "Non-basic"

/-- C8: in the reduced-costs table a variable is labeled `"Basic"`
exactly when its solution value exceeds 1e-6 and `"Non-basic"`
otherwise; a degenerate basic variable of value zero is labeled
`"Non-basic"`, and when no solution vector is supplied every variable
is labeled `"Non-basic"`. -/
theorem reduced_cost_status_spec (n : Nat) (values : List ℚ)
    (i : Nat) :
    (reduced_cost_status n (some values) i = "Basic"
        ↔ values.getD i 0 > 1 / 1000000) ∧
    (reduced_cost_status n (some values) i = "Non-basic"
        ↔ ¬ values.getD i 0 > 1 / 1000000) ∧
    (values.getD i 0 = 0 →
      reduced_cost_status n (some values) i = "Non-basic") ∧
    reduced_cost_status n none i = "Non-basic" := by
  have hrep : (List.replicate n (0:ℚ)).getD i 0 = 0 := by
    simp [List.getD_eq_getElem?_getD, List.getElem?_replicate]
    split_ifs <;> rfl
  unfold reduced_cost_status
  dsimp only [Option.getD]
  refine ⟨?_, ?_, ?_, ?_⟩
  · split_ifs with h
    · exact iff_of_true rfl h
    · exact iff_of_false (by decide) h
  · split_ifs with h
    · exact iff_of_false (by decide) (not_not_intro h)
    · exact iff_of_true rfl h
  · intro h0
    rw [h0, if_neg (by norm_num)]
  · rw [hrep, if_neg (by norm_num)]

/-- Models Python's fixed-point f-string rendering `f"{q:.2f}"` of a
finite float: optional sign, integer digits, a decimal point, two
fractional digits. The exact digit rounding is immaterial to the
claims, which only concern whether a rendered cell is the symbol
`"∞"` — and this rendering always contains a `'.'`, so it never is. -/
def formatFixed2 (q : ℚ) : String :=
  let c : Int := (100 * q).floor
  ((if c < 0 then "-" else "") ++ Nat.repr (c.natAbs / 100)) ++ "."
    ++ Nat.repr (c.natAbs % 100)

/-- Models Python's float formatting (`f"{x:,.2f}"` / `f"{x:.2f}"`) on
the full float domain: finite values render as fixed-point digits,
non-finite values render as `"inf"`, `"-inf"` or `"nan"`. -/
def pyFormatFloat : FloatVal → String
  | .finite q => formatFixed2 q
  | .posInf => "inf"
  | .negInf => "-inf"
  | .nan => "nan"

/-- Embedding of `SensitivityTable.display_constraint_ranges`
(`src/ui/components/sensitivity_table.py`, lines 167-189), allowable
increase column: `"∞" if inc == float('inf') else f"{inc:,.2f}"`. -/
def constraint_range_inc_str (inc : FloatVal) : String :=
  if inc = .posInf then "∞" else pyFormatFloat inc

/-- Embedding of `SensitivityTable.display_constraint_ranges`
(`src/ui/components/sensitivity_table.py`, lines 167-189), allowable
decrease column: `f"{dec:,.2f}"` — always numeric formatting, with no
`"∞"` substitution. -/
def constraint_range_dec_str (dec : FloatVal) : String :=
  pyFormatFloat dec

/-- Embedding of `SensitivityTable.display_variable_ranges`
(`src/ui/components/sensitivity_table.py`, lines 191-213), allowable
increase column: `"∞" if inc == float('inf') else f"{inc:,.2f}"`. -/
def variable_range_inc_str (inc : FloatVal) : String :=
  if inc = .posInf then "∞" else pyFormatFloat inc

/-- Embedding of `SensitivityTable.display_variable_ranges`
(`src/ui/components/sensitivity_table.py`, lines 191-213), allowable
decrease column: `"∞" if dec == float('inf') else f"{dec:,.2f}"`. -/
def variable_range_dec_str (dec : FloatVal) : String :=
  if dec = .posInf then "∞" else pyFormatFloat dec

/-- Embedding of `WhatIfPanel._create_ranges_section`
(`src/ui/components/what_if_panel.py`, lines 590-633), decrease cell:
`f"{dec:.2f}" if dec != float('inf') else "∞"`. -/
def whatif_range_dec_str (dec : FloatVal) : String :=
  if dec ≠ .posInf then pyFormatFloat dec else "∞"

/-- Embedding of `WhatIfPanel._create_ranges_section`
(`src/ui/components/what_if_panel.py`, lines 590-633), increase cell:
`f"{inc:.2f}" if inc != float('inf') else "∞"`. -/
def whatif_range_inc_str (inc : FloatVal) : String :=
  if inc ≠ .posInf then pyFormatFloat inc else "∞"

lemma append_dot_append_ne_infty (s t : String) :
    s ++ "." ++ t ≠ "∞" := by
  intro h
  have hd : (s ++ "." ++ t).data = "∞".data := by rw [h]
  simp [String.data_append] at hd
  rcases List.append_eq_cons_iff.mp hd with ⟨h1, h2⟩ | ⟨as, h1, h2⟩
  · simp at h2
  · exact absurd (congrArg List.length h2) (by simp; omega)

lemma pyFormatFloat_ne_infty (x : FloatVal) : pyFormatFloat x ≠ "∞" := by
  cases x with
  | finite q => exact append_dot_append_ne_infty _ _
  | posInf => decide
  | negInf => decide
  | nan => decide

/-- C7 counterexample: in the constraint-ranges table of
`SensitivityTable`, an infinite allowable decrease is rendered by the
numeric float formatter as `"inf"`, not as the symbol `"∞"` (while the
same table does render an infinite allowable increase as `"∞"`). -/
theorem infinite_range_rendering_counterexample :
    constraint_range_dec_str .posInf = "inf" ∧
    constraint_range_dec_str .posInf ≠ "∞" ∧
    constraint_range_inc_str .posInf = "∞" := by
  refine ⟨rfl, ?_, rfl⟩
  intro h
  exact absurd h (by decide)

/-- C7 amended: an unbounded (infinite) allowable increase or decrease
is rendered as `"∞"` in the objective-coefficient (variable) ranges
table and in the what-if ranges section, and an unbounded allowable
increase is rendered as `"∞"` in the RHS (constraint) ranges table;
but the allowable-decrease column of the RHS (constraint) ranges table
always uses numeric formatting, so an infinite decrease there shows as
`"inf"`, never `"∞"`. -/
theorem infinite_range_rendering_spec (x : FloatVal) :
    (variable_range_inc_str x = "∞" ↔ x = .posInf) ∧
    (variable_range_dec_str x = "∞" ↔ x = .posInf) ∧
    (constraint_range_inc_str x = "∞" ↔ x = .posInf) ∧
    (whatif_range_inc_str x = "∞" ↔ x = .posInf) ∧
    (whatif_range_dec_str x = "∞" ↔ x = .posInf) ∧
    constraint_range_dec_str x ≠ "∞" := by
  unfold variable_range_inc_str variable_range_dec_str
    constraint_range_inc_str whatif_range_inc_str whatif_range_dec_str
    constraint_range_dec_str
  by_cases h : x = FloatVal.posInf
  · subst h
    refine ⟨?_, ?_, ?_, ?_, ?_, ?_⟩ <;>
      first
        | exact iff_of_true rfl rfl
        | exact iff_of_true (if_neg (by simp)) rfl
        | exact pyFormatFloat_ne_infty _
  · refine ⟨?_, ?_, ?_, ?_, ?_, ?_⟩ <;>
      first
        | exact iff_of_false
            (by rw [if_neg h]; exact pyFormatFloat_ne_infty x) h
        | exact iff_of_false
            (by rw [if_pos h]; exact pyFormatFloat_ne_infty x) h
        | exact pyFormatFloat_ne_infty x

/-- The mutable state of `WhatIfPanel`
(`src/ui/components/what_if_panel.py`) that the structural editing
operations touch: the variable and constraint name lists, the objective
coefficients, the RHS values, the two Python-int counters, and the
constraint matrix (`None` or a 2-D array, embedded as rows). -/
structure WhatIfState where
  variable_names : List String
  objective_coeffs : List ℚ
  constraint_names : List String
  rhs_values : List ℚ
  num_variables : Int
  num_constraints : Int
  constraint_matrix : Option (List (List ℚ))

/-- The shape invariant of C9: the constraint matrix is present with
shape `(num_constraints, num_variables)`,
`len variable_names = len objective_coeffs = num_variables ≥ 1` and
`len constraint_names = len rhs_values = num_constraints ≥ 1`. -/
def ShapeInv (s : WhatIfState) : Prop :=
  ∃ M, s.constraint_matrix = some M ∧
    M.length = s.constraint_names.length ∧
    (∀ row ∈ M, row.length = s.variable_names.length) ∧
    s.variable_names.length = s.objective_coeffs.length ∧
    s.constraint_names.length = s.rhs_values.length ∧
    s.num_variables = (s.variable_names.length : Int) ∧
    s.num_constraints = (s.constraint_names.length : Int) ∧
    1 ≤ s.variable_names.length ∧
    1 ≤ s.constraint_names.length

/-- Embedding of `WhatIfPanel._add_variable`
(`src/ui/components/what_if_panel.py`, lines 635-653): appends a new
name and a `0.0` objective coefficient, increments `num_variables`,
and, when the constraint matrix is present, `hstack`s a zero column
onto it (one new `0` entry per row). -/
def addVariable (s : WhatIfState) : WhatIfState :=
  let new_name := "Variable " ++ Nat.repr (s.variable_names.length + 1)
  let s1 := { s with
    variable_names := s.variable_names ++ [new_name]
    objective_coeffs := s.objective_coeffs ++ [0]
    num_variables := s.num_variables + 1 }
  match s.constraint_matrix with
  | some M => { s1 with
      constraint_matrix := some (M.map (fun row => row ++ [0])) }
  | none => s1

/-- Embedding of `WhatIfPanel._remove_variable`
(`src/ui/components/what_if_panel.py`, lines 762-782), on the path
where the user confirms the deletion (the cancel path leaves the state
unchanged): guarded no-op when only one variable remains; otherwise
deletes the indexed name, the indexed objective coefficient (when in
range), decrements `num_variables`, and, when the constraint matrix is
present and has more than `index` columns, `np.delete`s column
`index`. -/
def removeVariable (s : WhatIfState) (index : Nat) : WhatIfState :=
  if s.variable_names.length ≤ 1 then s
  else
    let s1 := { s with
      variable_names := s.variable_names.eraseIdx index
      objective_coeffs :=
        if index < s.objective_coeffs.length then
          s.objective_coeffs.eraseIdx index
        else s.objective_coeffs
      num_variables := s.num_variables - 1 }
    match s.constraint_matrix with
    | some M => { s1 with
        constraint_matrix :=
          some (if index < (M.headD []).length then
              M.map (fun row => row.eraseIdx index)
            else M) }
    | none => s1

/-- Embedding of `WhatIfPanel._add_constraint`
(`src/ui/components/what_if_panel.py`, lines 784-804): appends a new
name and a `0.0` RHS value, increments `num_constraints`, and either
`vstack`s a zero row onto the present constraint matrix or, when the
matrix is `None` and there are variables, creates a fresh
`1 × num_variables` zero matrix. -/
def addConstraint (s : WhatIfState) : WhatIfState :=
  let new_name := "Constraint " ++ Nat.repr (s.constraint_names.length + 1)
  let s1 := { s with
    constraint_names := s.constraint_names ++ [new_name]
    rhs_values := s.rhs_values ++ [0]
    num_constraints := s.num_constraints + 1 }
  match s.constraint_matrix with
  | some M => { s1 with
      constraint_matrix :=
        some (M ++ [List.replicate (M.headD []).length 0]) }
  | none =>
      if s.num_variables > 0 then
        { s1 with
          constraint_matrix :=
            some [List.replicate s.num_variables.toNat 0] }
      else s1

/-- Embedding of `WhatIfPanel._remove_constraint`
(`src/ui/components/what_if_panel.py`, lines 806-826), on the path
where the user confirms the deletion: guarded no-op when only one
constraint remains; otherwise deletes the indexed name, the indexed
RHS value (when in range), decrements `num_constraints`, and, when the
constraint matrix is present and has more than `index` rows,
`np.delete`s row `index`. -/
def removeConstraint (s : WhatIfState) (index : Nat) : WhatIfState :=
  if s.constraint_names.length ≤ 1 then s
  else
    let s1 := { s with
      constraint_names := s.constraint_names.eraseIdx index
      rhs_values :=
        if index < s.rhs_values.length then
          s.rhs_values.eraseIdx index
        else s.rhs_values
      num_constraints := s.num_constraints - 1 }
    match s.constraint_matrix with
    | some M => { s1 with
        constraint_matrix :=
          some (if index < M.length then M.eraseIdx index else M) }
    | none => s1

lemma shapeInv_addVariable (s : WhatIfState) (h : ShapeInv s) :
    ShapeInv (addVariable s) := by
  obtain ⟨M, hM, hrows, hcols, hvo, hcr, hnv, hnc, hv1, hc1⟩ := h
  simp only [addVariable, hM]
  refine ⟨M.map (fun row => row ++ [0]), rfl, ?_, ?_, ?_, ?_, ?_, ?_, ?_, ?_⟩
  · simpa using hrows
  · intro row hrow
    simp only [List.mem_map] at hrow
    obtain ⟨r0, hr0, rfl⟩ := hrow
    simp [hcols r0 hr0]
  · simp [hvo]
  · simp [hcr]
  · simp only [List.length_append, List.length_cons, List.length_nil]
    omega
  · simpa using hnc
  · simp
  · simpa using hc1

lemma length_eraseIdx_of_lt {α : Type} (l : List α) (i : Nat)
    (h : i < l.length) : (l.eraseIdx i).length = l.length - 1 := by
  rw [List.length_eraseIdx]
  simp [h]

lemma shapeInv_removeVariable (s : WhatIfState) (i : Nat)
    (h : ShapeInv s) (hi : i < s.variable_names.length) :
    ShapeInv (removeVariable s i) := by
  obtain ⟨M, hM, hrows, hcols, hvo, hcr, hnv, hnc, hv1, hc1⟩ := h
  unfold removeVariable
  by_cases hguard : s.variable_names.length ≤ 1
  · rw [if_pos hguard]
    exact ⟨M, hM, hrows, hcols, hvo, hcr, hnv, hnc, hv1, hc1⟩
  · rw [if_neg hguard]
    have hMne : M ≠ [] := by
      intro hnil
      rw [hnil] at hrows
      simp at hrows
      omega
    obtain ⟨r0, M', rfl⟩ := List.exists_cons_of_ne_nil hMne
    have hr0len : r0.length = s.variable_names.length :=
      hcols r0 (List.mem_cons_self r0 M')
    have hcolguard : i < ((r0 :: M').headD []).length := by
      simpa [List.headD, hr0len] using hi
    simp only [hM, if_pos (hvo ▸ hi), if_pos hcolguard]
    refine ⟨(r0 :: M').map (fun row => row.eraseIdx i), rfl,
      ?_, ?_, ?_, ?_, ?_, ?_, ?_, ?_⟩
    · simpa using hrows
    · intro row hrow
      simp only [List.mem_map] at hrow
      obtain ⟨r1, hr1, rfl⟩ := hrow
      have hl1 : r1.length = s.variable_names.length := hcols r1 hr1
      rw [length_eraseIdx_of_lt r1 i (by rw [hl1]; exact hi),
        length_eraseIdx_of_lt _ i hi, hl1]
    · rw [length_eraseIdx_of_lt _ i hi,
        length_eraseIdx_of_lt _ i (hvo ▸ hi), hvo]
    · exact hcr
    · rw [length_eraseIdx_of_lt _ i hi, hnv]
      dsimp only
      omega
    · exact hnc
    · rw [length_eraseIdx_of_lt _ i hi]
      omega
    · exact hc1

lemma shapeInv_addConstraint (s : WhatIfState) (h : ShapeInv s) :
    ShapeInv (addConstraint s) := by
  obtain ⟨M, hM, hrows, hcols, hvo, hcr, hnv, hnc, hv1, hc1⟩ := h
  simp only [addConstraint, hM]
  have hMne : M ≠ [] := by
    intro hnil
    rw [hnil] at hrows
    simp at hrows
    omega
  obtain ⟨r0, M', rfl⟩ := List.exists_cons_of_ne_nil hMne
  have hr0len : r0.length = s.variable_names.length :=
    hcols r0 (List.mem_cons_self r0 M')
  refine ⟨(r0 :: M') ++ [List.replicate ((r0 :: M').headD []).length 0],
    rfl, ?_, ?_, ?_, ?_, ?_, ?_, ?_, ?_⟩
  · simpa using hrows
  · intro row hrow
    rw [List.mem_append] at hrow
    rcases hrow with hrow | hrow
    · exact hcols row hrow
    · simp only [List.mem_singleton] at hrow
      rw [hrow]
      simpa using hr0len
  · exact hvo
  · simp [hcr]
  · exact hnv
  · simp only [List.length_append, List.length_cons, List.length_nil]
    omega
  · exact hv1
  · simp

lemma shapeInv_removeConstraint (s : WhatIfState) (j : Nat)
    (h : ShapeInv s) (hj : j < s.constraint_names.length) :
    ShapeInv (removeConstraint s j) := by
  obtain ⟨M, hM, hrows, hcols, hvo, hcr, hnv, hnc, hv1, hc1⟩ := h
  unfold removeConstraint
  by_cases hguard : s.constraint_names.length ≤ 1
  · rw [if_pos hguard]
    exact ⟨M, hM, hrows, hcols, hvo, hcr, hnv, hnc, hv1, hc1⟩
  · rw [if_neg hguard]
    have hrowguard : j < M.length := by rw [hrows]; exact hj
    simp only [hM, if_pos (hcr ▸ hj), if_pos hrowguard]
    refine ⟨M.eraseIdx j, rfl, ?_, ?_, ?_, ?_, ?_, ?_, ?_, ?_⟩
    · rw [length_eraseIdx_of_lt _ j hrowguard,
        length_eraseIdx_of_lt _ j hj, hrows]
    · intro row hrow
      exact hcols row (List.eraseIdx_subset _ j hrow)
    · exact hvo
    · rw [length_eraseIdx_of_lt _ j hj,
        length_eraseIdx_of_lt _ j (hcr ▸ hj), hcr]
    · exact hnv
    · rw [length_eraseIdx_of_lt _ j hj, hnc]
      dsimp only
      omega
    · exact hv1
    · rw [length_eraseIdx_of_lt _ j hj]
      omega

/-- C9: from any what-if panel state satisfying the shape invariant —
constraint matrix present with shape `(num_constraints,
num_variables)`, `len variable_names = len objective_coeffs =
num_variables ≥ 1`, `len constraint_names = len rhs_values =
num_constraints ≥ 1` — each of `_add_variable`, `_remove_variable`,
`_add_constraint` and `_remove_constraint` (their no-op guard branches
included) preserves the invariant, for any in-range removal index. -/
theorem whatif_ops_preserve_shape_inv (s : WhatIfState) (i j : Nat)
    (h : ShapeInv s) (hi : i < s.variable_names.length)
    (hj : j < s.constraint_names.length) :
    ShapeInv (addVariable s) ∧ ShapeInv (removeVariable s i) ∧
    ShapeInv (addConstraint s) ∧ ShapeInv (removeConstraint s j) :=
  ⟨shapeInv_addVariable s h, shapeInv_removeVariable s i h hi,
   shapeInv_addConstraint s h, shapeInv_removeConstraint s j h hj⟩

/-- A concrete what-if panel state: two variables, two constraints,
with a 2 × 2 constraint matrix. -/
def examplePanelState : WhatIfState where
  variable_names := ["x1", "x2"]
  objective_coeffs := [3, 5]
  constraint_names := ["C1", "C2"]
  rhs_values := [4, 12]
  num_variables := 2
  num_constraints := 2
  constraint_matrix := some [[1, 0], [0, 2]]

/-- Witness for C9: the invariant hypotheses hold at
`examplePanelState` with removal indices 0, and the four operations
preserve the invariant there. -/
theorem whatif_ops_preserve_shape_inv_witness :
    ShapeInv (addVariable examplePanelState) ∧
    ShapeInv (removeVariable examplePanelState 0) ∧
    ShapeInv (addConstraint examplePanelState) ∧
    ShapeInv (removeConstraint examplePanelState 0) :=
  whatif_ops_preserve_shape_inv examplePanelState 0 0
    ⟨[[1, 0], [0, 2]], rfl, rfl,
      by intro row hrow; fin_cases hrow <;> rfl,
      rfl, rfl, rfl, rfl, by decide, by decide⟩
    (by norm_num [examplePanelState]) (by norm_num [examplePanelState])

end ORProject
